import Mathlib

/-!
Formal model of the animal photo gallery service.

This development shallowly embeds the Python sources of the service:

* `image_classifier.py` — keyword vocabularies, the label generalization
  cascade, the top-K/fallback prediction scan and bucket decision of
  `ImageClassifier.classify_and_organize`, and its metadata sidecar writer;
* `computer_server.py` — the per-connection upload protocol handler
  `ComputerServer.handle_client`, the processing pipeline
  `ComputerServer.process_image`, and `save_image_metadata`;
* `image_filters.py` — the filter stage `apply_filter`;
* `web_gallery.py` — the read-side listing (`gallery` route helpers
  `load_image_metadata` and the per-category image listing).

Python strings are modelled over their character lists, float confidences as
rationals, the filesystem and socket effects as explicit data returned by the
modelled functions, and the external classifier as an `Except`-valued
inference outcome supplied to the pipeline.
-/

set_option maxRecDepth 40000

namespace AnimalGallery

/-- Apostrophe character, used to spell the one keyword containing it. -/
def apos : Char := Char.ofNat 39

/-- Substring test on character lists: Python's `needle in haystack`. -/
def hasSub : List Char → List Char → Bool
  | [], ns => ns.isEmpty
  | h :: t, ns => ns.isPrefixOf (h :: t) || hasSub t ns

/-- Python's `needle in haystack` for strings. -/
def containsSub (hay needle : String) : Bool := hasSub hay.data needle.data

/-- Python's `str.lower()` (the keywords involved are ASCII). -/
def lowerStr (s : String) : String := ⟨s.data.map Char.toLower⟩

/-- Helper for `titleStr`: the Bool records whether the previous character
was alphabetic (Python: cased). -/
def titleChars : List Char → Bool → List Char
  | [], _ => []
  | c :: rest, prevAlpha =>
    if c.isAlpha then
      (if prevAlpha then c.toLower else c.toUpper) :: titleChars rest true
    else c :: titleChars rest false

/-- Python's `str.title()`: first letter of each alphabetic run uppercased,
the rest lowercased. -/
def titleStr (s : String) : String := ⟨titleChars s.data false⟩

/-- Python's `any(keyword in label for keyword in kws)`. -/
def anyKw (l : String) (kws : List String) : Bool := kws.any (fun k => containsSub l k)

/-- Fuelled core of `pyReplace`; the fuel is the length of the scanned list,
which bounds the number of steps, keeping the recursion structural. -/
def replaceFuel (old rep : List Char) : Nat → List Char → List Char
  | 0, s => s
  | _ + 1, [] => []
  | f + 1, c :: rest =>
    if old ≠ [] ∧ old.isPrefixOf (c :: rest) then
      rep ++ replaceFuel old rep f (rest.drop (old.length - 1))
    else c :: replaceFuel old rep f rest

/-- Python's `s.replace(old, rep)`: all non-overlapping occurrences,
left to right. -/
def pyReplace (s old rep : String) : String :=
  ⟨replaceFuel old.data rep.data s.data.length s.data⟩

/-- Split a character list on a separator character (as `s.split(sep)`). -/
def splitOnCharCS (sep : Char) : List Char → List (List Char)
  | [] => [[]]
  | c :: rest =>
    match splitOnCharCS sep rest with
    | [] => if c = sep then [[], []] else [[c]]
    | s :: ss => if c = sep then [] :: s :: ss else (c :: s) :: ss

/-- Python's `os.path.basename` for slash-separated paths. -/
def basename (p : String) : String := ⟨(splitOnCharCS (Char.ofNat 47) p.data).getLastD []⟩

/-- Two-digit rendering of a number below 100. -/
def pad2 (n : Nat) : String := if n < 10 then "0" ++ Nat.repr n else Nat.repr n

/-- Python's `f"{q:.2%}"`: the value times 100 with two decimals and a
percent sign. The integer `(20000·num + den).fdiv (2·den)` is the nearest
integer to `q·10000` (ties rounded up; Python rounds ties of the underlying
double to even, a difference immaterial to every claim below). -/
def formatPercent (q : ℚ) : String :=
  let n : ℤ := (20000 * q.num + q.den).fdiv (2 * q.den)
  Nat.repr (n / 100).toNat ++ "." ++ pad2 (n % 100).toNat ++ "%"

/-- JSON scalar values occurring in the sidecar files. -/
inductive JVal where
  | str (s : String)
  | bool (b : Bool)
deriving DecidableEq
/-- ImageNet labels for the 'dog' sub-vocabulary
(`ImageClassifier._get_animal_labels('dog')` in `image_classifier.py`). -/
def dog_labels : List String :=
  ["greyhound", "golden retriever", "Labrador retriever", "German shepherd", "pug", 
   "chihuahua", "beagle", "bulldog", "husky", "dalmatian", "Great Dane", "boxer", "Doberman", 
   "rottweiler", "schnauzer", "Shetland sheepdog", "whippet", "bloodhound", "malamute", 
   "papillon", "Shih-Tzu", "Afghan hound", "basset", "cocker spaniel", "collie", "poodle", 
   "dingo", "dhole", "African hunting dog"]

/-- ImageNet labels for the 'cat' sub-vocabulary
(`ImageClassifier._get_animal_labels('cat')` in `image_classifier.py`). -/
def cat_labels : List String :=
  ["tabby", "Persian cat", "Siamese cat", "Egyptian cat", "tiger cat", "cat"]

/-- ImageNet labels for the 'bird' sub-vocabulary
(`ImageClassifier._get_animal_labels('bird')` in `image_classifier.py`). -/
def bird_labels : List String :=
  ["robin", "junco", "brambling", "sparrow", "eagle", "vulture", "peacock", "flamingo", 
   "ostrich", "penguin", "bald eagle", "golden eagle", "black grouse", "ptarmigan", 
   "ruffed grouse", "prairie chicken", "quail", "partridge", "African grey", "macaw", 
   "sulphur-crested cockatoo", "lorikeet", "coucal", "bee eater", "hornbill", "hummingbird", 
   "jacamar", "toucan", "drake", "red-breasted merganser", "goose", "black swan", 
   "white stork", "black stork", "spoonbill", "little blue heron", "American egret", "bittern", 
   "crane", "limpkin", "rail", "coot", "bustard", "ruddy turnstone", "red-backed sandpiper", 
   "redshank", "dowitcher", "oystercatcher", "pelican", "king penguin", "albatross"]

/-- Labels for other animals (`ImageClassifier._get_other_animal_labels`). -/
def other_animal_labels : List String :=
  ["tiger", "bengal tiger", "siberian tiger", "amur tiger", "cheetah", "lion", "african lion", 
   "asian lion", "snow leopard", "irbis", "jaguar", "cougar", "mountain lion", "puma", 
   "panther", "lynx", "leopard", "african leopard", "clouded leopard", "amur leopard", 
   "ocelot", "caracal", "serval", "linsang", "binturong", "american black bear", "black bear", 
   "brown bear", "grizzly bear", "grizzly", "polar bear", "ice bear", "ursus maritimus", 
   "sloth bear", "honey bear", "sun bear", "panda bear", "giant panda", "wolf", "gray wolf", 
   "grey wolf", "arctic wolf", "red wolf", "fox", "red fox", "arctic fox", "fennec", "kit fox", 
   "grey fox", "jackal", "coyote", "orangutan", "orang-utan", "orang utan", "gorilla", 
   "lowland gorilla", "mountain gorilla", "chimpanzee", "chimp", "pan troglodytes", "gibbon", 
   "siamang", "lar gibbon", "baboon", "hamadryas", "mandrill", "drill", "macaque", "rhesus", 
   "rhesus monkey", "vervet", "vervet monkey", "langur", "colobus", "colobus monkey", "guenon", 
   "patas", "capuchin", "howler", "howler monkey", "spider monkey", "squirrel monkey", "titi", 
   "marmoset", "tamarin", "indri", "lemur", "ring-tailed lemur", "aye-aye", "aye aye", 
   "tarsier", "tarsius", "loris", "slow loris", "slender loris", "galago", "bushbaby", 
   "bush baby", "hyena", "hyaena", "spotted hyena", "striped hyena", "Indian elephant", 
   "African elephant", "Asian elephant", "elephant", "penguin", "emperor penguin", 
   "rockhopper", "adelie", "king penguin", "whale", "blue whale", "grey whale", "gray whale", 
   "killer whale", "orca", "humpback", "dolphin", "bottlenose dolphin", "bottlenose", 
   "spinner dolphin", "dugong", "sea lion", "seal", "fur seal", "leopard seal", "walrus", 
   "sea otter", "otter", "river otter", "manatee", "sea cow", "narwhal", "beluga", "python", 
   "ball python", "reticulated python", "burmese python", "cobra", "king cobra", 
   "indian cobra", "black cobra", "spitting cobra", "mamba", "green mamba", "black mamba", 
   "boa", "boa constrictor", "anaconda", "green anaconda", "yellow anaconda", "rattlesnake", 
   "diamondback", "diamondback rattlesnake", "sidewinder", "viper", "pit viper", 
   "horned viper", "sea snake", "sea krait", "krait", "corn snake", "milk snake", "king snake", 
   "water snake", "garter snake", "hognose snake", "black snake", "green snake", 
   "thunder snake", "ringneck snake", "vine snake", "night snake", "rock python", 
   "spitting snake", "komodo dragon", "komodo", "monitor", "monitor lizard", "nile monitor", 
   "iguana", "green iguana", "common iguana", "chameleon", "veiled chameleon", 
   "panther chameleon", "jackson chameleon", "crested chameleon", "african chameleon", "gecko", 
   "leopard gecko", "day gecko", "crested gecko", "frilled lizard", "frilled", "agama", 
   "bearded agama", "basilisk", "horned lizard", "gila monster", "beaded lizard", "skink", 
   "slow worm", "legless lizard", "alligator lizard", "green lizard", "wall lizard", "anole", 
   "whiptail", "tortoise", "giant tortoise", "galapagos tortoise", "aldabra tortoise", 
   "sea turtle", "green sea turtle", "loggerhead", "loggerhead turtle", "hawksbill turtle", 
   "hawksbill", "leatherback turtle", "leatherback", "olive ridley", "turtle", "box turtle", 
   "painted turtle", "red-eared slider", "slider", "snapping turtle", "terrapin", "mud turtle", 
   "crocodile", "nile crocodile", "saltwater crocodile", "saltie", "american crocodile", 
   "alligator", "american alligator", "gator", "caiman", "spectacled caiman", "black caiman", 
   "gharial", "false gharial", "poison dart frog", "poison frog", "dart frog", "tree frog", 
   "red-eyed tree frog", "red-eyed", "bullfrog", "american bullfrog", "bull frog", "frog", 
   "leopard frog", "green frog", "chorus frog", "spring peeper", "toad", "cane toad", "bufo", 
   "american toad", "true toad", "axolotl", "salamander", "tiger salamander", 
   "spotted salamander", "fire salamander", "european fire salamander", "hellbender", 
   "giant salamander", "chinese salamander", "japanese salamander", "newt", "alpine newt", 
   "smooth newt", "common newt", "eft", "mud puppy", "siren", "caecilian", "zebra", 
   "plains zebra", "mountain zebra", ("grevy" ++ String.singleton apos ++ "s zebra"), 
   "giraffe", "okapi", "hippopotamus", "hippo", "rhinoceros", "rhino", "white rhino", 
   "black rhino", "sumatran rhino", "deer", "red deer", "mule deer", "sika deer", "elk", 
   "moose", "reindeer", "caribou", "antelope", "pronghorn", "gazelle", "springbok", "impala", 
   "kudu", "eland", "wildebeest", "gnu", "nyala", "oryx", "addax", "gemsbuck", "waterbuck", 
   "bushbuck", "duiker", "buffalo", "water buffalo", "bison", "american bison", 
   "european bison", "camel", "dromedary", "arabian camel", "bactrian camel", "llama", 
   "alpaca", "guanaco", "vicuna", "sheep", "lamb", "ram", "bighorn", "bighorn sheep", "goat", 
   "kid", "mountain goat", "ibex", "horse", "pony", "mare", "stallion", "colt", "foal", 
   "donkey", "mule", "ass", "cattle", "cow", "bull", "ox", "holstein", "hereford", "pig", 
   "hog", "wild boar", "warthog", "babirusa", "peccary", "javelina", "ox", "yak", "musk ox", 
   "chevrotain", "takin", "sorrel", "red panda", "raccoon", "skunk", "weasel", "mink", 
   "polecat", "black-footed ferret", "ferret", "badger", "armadillo", "three-toed sloth", 
   "two-toed sloth", "sloth", "porcupine", "quill pig", "beaver", "hamster", "guinea pig", 
   "hedgehog", "mole", "shrew", "flying squirrel", "fox squirrel", "squirrel", "marmot", 
   "prairie dog", "ground squirrel", "chipmunk", "chinchilla", "paca", "agouti", "nutria", 
   "capybara", "desman", "koala", "wombat", "wallaby", "kangaroo", "red kangaroo", 
   "grey kangaroo", "tree kangaroo", "echidna", "platypus", "tasmanian devil", "sugar glider", 
   "feathertail glider", "opossum", "possum", "quokka", "numbat", "burrowing bettong", 
   "aardvark", "anteater", "ant eater", "pangolin", "hyrax", "rock hyrax", "tree hyrax", 
   "yellow-spotted hyrax", "colugo", "flying lemur", "flying dragon", 
   "scaly-tailed flying dragon", "emu", "cassowary", "kiwi", "rhea", "tree shrew", "tupaia", 
   "tupayo", "treeshrew"]

/-- Person-related keywords (`ImageClassifier.is_human`). -/
def human_keywords : List String :=
  ["person", "human", "man", "woman", "boy", "girl", "child", "baby", "people", "face", 
   "selfie", "portrait", "head", "headshot", "baseball player", "basketball player", 
   "soccer player", "football player", "runner", "athlete", "climber", "skier", "snowboarder", 
   "swimmer", "bride", "groom", "cowboy", "cowgirl", "police officer", "policeman", 
   "policewoman", "firefighter", "doctor", "nurse", "chef", "waiter", "businessman", 
   "businesswoman", "student", "scuba diver", "soldier", "surgeon"]

/-- Generic animal-class keywords used by `ImageClassifier.is_animal`. -/
def generic_animal_keywords : List String :=
  ["animal", "mammal", "bird", "fish", "reptile", "amphibian", "insect", "arachnid", 
   "crustacean", "mollusk", "rodent", "carnivore", "herbivore", "omnivore", "vertebrate", 
   "invertebrate"]

/-- Dog-breed keywords of the first generalization rule
(`dog_keywords` local in `_generalize_animal_label`). -/
def dog_keywords : List String :=
  ["retriever", "shepherd", "pug", "chihuahua", "beagle", "bulldog", "husky", "dalmatian", 
   "dane", "boxer", "doberman", "rottweiler", "schnauzer", "sheepdog", "whippet", "bloodhound", 
   "malamute", "papillon", "shih", "hound", "basset", "spaniel", "collie", "poodle", "terrier", 
   "dingo", "dhole"]

/-- Bird keywords of the bird collapse rule (`bird_keywords` local in
`_generalize_animal_label`). -/
def bird_keywords : List String :=
  ["bird", "eagle", "hawk", "owl", "penguin", "parrot", "macaw", "cockatoo", "lorikeet", 
   "parakeet", "hornbill", "hummingbird", "toucan", "stork", "egret", "crane", "pelican", 
   "duck", "swan", "goose", "peacock", "flamingo", "ostrich", "chicken", "turkey", "emu", 
   "cassowary", "kiwi", "rhea", "crow", "raven", "jay", "magpie", "falcon", "vulture", "robin", 
   "woodpecker", "albatross", "puffin", "gull", "tern", "heron", "sandpiper", "avocet", 
   "plover", "loon", "cormorant"]

/-- Ordered big-cat (keyword, canonical name) table (`big_cats` dict in
`_generalize_animal_label`); evaluated first-match-wins in insertion order. -/
def big_cats : List (String × String) :=
  [("tiger", "Tiger"),
   ("lion", "Lion"),
   ("cheetah", "Cheetah"),
   ("leopard", "Leopard"),
   ("jaguar", "Jaguar"),
   ("cougar", "Cougar"),
   ("lynx", "Lynx"),
   ("snow leopard", "Snow Leopard")]

/-- Priority-ordered generalization cascade turning a specific breed or
species label into a canonical display name (`ImageClassifier._generalize_animal_label`);
the branch order transcribes the nested conditionals of the source. -/
def _generalize_animal_label (specific_label : String) : String :=
  let l := lowerStr specific_label
  if anyKw l dog_keywords then "Dog"
  else if anyKw l ["tabby", "persian cat", "siamese", "egyptian cat", "tiger cat"] then "Cat"
  else if l = "cat" then "Cat"
  else
  match List.find? (fun kv => containsSub l kv.1) big_cats with
  | some kv => kv.2
  | none =>
  if anyKw l ["duck", "mallard", "wood duck", "teal"] then "Duck"
  else if anyKw l ["swan", "black swan", "mute swan"] then "Swan"
  else if anyKw l ["goose", "canada goose", "snow goose"] then "Goose"
  else if anyKw l ["peacock", "peafowl", "indian peafowl"] then "Peacock"
  else if anyKw l ["flamingo", "pink flamingo"] then "Flamingo"
  else if containsSub l "ostrich" then "Ostrich"
  else if anyKw l ["chicken", "rooster", "hen", "chicken rooster"] then "Chicken"
  else if containsSub l "turkey" then "Turkey"
  else if anyKw l bird_keywords then "Bird"
  else if containsSub l "elephant" then "Elephant"
  else if containsSub l "panda" then "Panda"
  else if (containsSub l "bear" && !(containsSub l "teddy")) then "Bear"
  else if anyKw l ["monkey", "ape", "gorilla", "chimpanzee", "orangutan", "gibbon", "baboon", "macaque", "lemur", "marmoset", "capuchin"] then "Monkey/Primate"
  else if anyKw l ["whale", "dolphin", "seal", "walrus", "sea lion", "dugong"] then "Marine Mammal"
  else if anyKw l ["snake", "lizard", "iguana", "chameleon", "gecko", "crocodile", "alligator", "turtle", "tortoise", "terrapin"] then "Reptile"
  else if anyKw l ["frog", "toad", "salamander", "newt"] then "Amphibian"
  else if anyKw l ["cow", "bull", "cattle", "holstein", "hereford"] then "Cow"
  else if anyKw l ["sheep", "lamb"] then "Sheep"
  else if anyKw l ["goat", "kid"] then "Goat"
  else if anyKw l ["horse", "pony", "mare", "stallion", "colt", "foal"] then "Horse"
  else if anyKw l ["pig", "hog", "swine"] then "Pig"
  else if anyKw l ["donkey", "mule", "ass"] then "Donkey"
  else if anyKw l ["deer", "elk", "moose", "reindeer", "caribou"] then "Deer"
  else if containsSub l "zebra" then "Zebra"
  else if containsSub l "giraffe" then "Giraffe"
  else if anyKw l ["gazelle", "antelope", "impala"] then "Antelope"
  else if (containsSub l "buffalo" || containsSub l "bison") then "Buffalo"
  else if anyKw l ["camel", "dromedary"] then "Camel"
  else if (containsSub l "llama" || containsSub l "alpaca") then "Llama"
  else if containsSub l "rhino" then "Rhinoceros"
  else if (containsSub l "hippopotamus" || containsSub l "hippo") then "Hippopotamus"
  else if containsSub l "warthog" then "Warthog"
  else if anyKw l ["wolf", "gray wolf", "grey wolf", "arctic wolf", "red wolf"] then "Wolf"
  else if containsSub l "coyote" then "Coyote"
  else if containsSub l "jackal" then "Jackal"
  else if anyKw l ["fox", "red fox", "arctic fox", "fennec", "kit fox", "grey fox"] then "Fox"
  else if anyKw l ["tiger", "bengal", "siberian", "amur tiger"] then "Tiger"
  else if anyKw l ["lion", "african lion", "asian lion"] then "Lion"
  else if anyKw l ["leopard", "clouded leopard", "amur leopard", "african leopard"] then "Leopard"
  else if containsSub l "cheetah" then "Cheetah"
  else if anyKw l ["snow leopard", "irbis"] then "Snow Leopard"
  else if containsSub l "jaguar" then "Jaguar"
  else if anyKw l ["cougar", "mountain lion", "puma", "panther"] then "Cougar"
  else if containsSub l "lynx" then "Lynx"
  else if containsSub l "ocelot" then "Ocelot"
  else if containsSub l "caracal" then "Caracal"
  else if containsSub l "serval" then "Serval"
  else if containsSub l "binturong" then "Binturong"
  else if anyKw l ["orangutan", "orang-utan", "orang utan"] then "Orangutan"
  else if anyKw l ["gorilla", "lowland", "mountain gorilla", "western"] then "Gorilla"
  else if anyKw l ["chimpanzee", "chimp", "pan troglodytes"] then "Chimpanzee"
  else if anyKw l ["gibbon", "siamang", "lar gibbon", "white-handed"] then "Gibbon"
  else if anyKw l ["baboon", "hamadryas", "mandrill", "drill"] then "Baboon"
  else if anyKw l ["monkey", "macaque", "rhesus", "vervet", "langur", "colobus", "guenon", "mangabey", "capuchin", "howler", "spider", "squirrel", "marmoset", "tamarin"] then "Monkey"
  else if anyKw l ["lemur", "ring-tailed", "lemure", "ringtail"] then "Lemur"
  else if anyKw l ["aye-aye", "aye aye"] then "Aye-Aye"
  else if (containsSub l "tarsier" || containsSub l "tarsius") then "Tarsier"
  else if anyKw l ["loris", "slow loris", "slender loris"] then "Loris"
  else if anyKw l ["galago", "bushbaby", "bush baby"] then "Galago"
  else if (containsSub l "hyena" || containsSub l "hyaena") then "Hyena"
  else if anyKw l ["python", "ball python", "reticulated", "burmese"] then "Python"
  else if anyKw l ["cobra", "king cobra", "indian cobra", "black cobra"] then "Cobra"
  else if anyKw l ["mamba", "green mamba", "black mamba"] then "Mamba"
  else if anyKw l ["boa", "boa constrictor", "anaconda"] then "Boa Constrictor"
  else if anyKw l ["rattlesnake", "diamondback", "sidewinder"] then "Rattlesnake"
  else if anyKw l ["viper", "pit viper", "horned viper"] then "Viper"
  else if anyKw l ["sea snake", "sea krait", "krait"] then "Sea Snake"
  else if anyKw l ["corn snake", "milk snake", "king snake", "water snake", "garter"] then "Snake"
  else if containsSub l "komodo" then "Komodo Dragon"
  else if anyKw l ["monitor", "monitor lizard", "nile monitor"] then "Monitor Lizard"
  else if anyKw l ["iguana", "green iguana", "common iguana"] then "Iguana"
  else if anyKw l ["chameleon", "veiled", "panther", "jackson", "crested"] then "Chameleon"
  else if anyKw l ["gecko", "leopard gecko", "day gecko", "crested gecko"] then "Gecko"
  else if containsSub l "frilled" then "Frilled Lizard"
  else if containsSub l "gila monster" then "Gila Monster"
  else if containsSub l "basilisk" then "Basilisk"
  else if anyKw l ["tortoise", "giant tortoise", "galapagos", "aldabra"] then "Tortoise"
  else if anyKw l ["sea turtle", "green sea turtle", "loggerhead", "hawksbill", "leatherback", "olive ridley"] then "Sea Turtle"
  else if anyKw l ["turtle", "box turtle", "painted", "slider", "snapping"] then "Turtle"
  else if anyKw l ["crocodile", "nile", "saltwater", "saltie", "american crocodile"] then "Crocodile"
  else if anyKw l ["alligator", "american alligator", "gator"] then "Alligator"
  else if anyKw l ["caiman", "spectacled", "black caiman"] then "Caiman"
  else if anyKw l ["gharial", "false gharial"] then "Gharial"
  else if anyKw l ["poison dart", "poison frog", "dart frog"] then "Poison Dart Frog"
  else if anyKw l ["tree frog", "red-eyed"] then "Tree Frog"
  else if anyKw l ["bullfrog", "american bullfrog"] then "Bullfrog"
  else if anyKw l ["frog", "leopard frog", "green frog", "chorus", "spring peeper"] then "Frog"
  else if anyKw l ["toad", "cane toad", "bufo", "true toad"] then "Toad"
  else if containsSub l "axolotl" then "Axolotl"
  else if anyKw l ["salamander", "tiger salamander", "spotted", "fire salamander", "european"] then "Salamander"
  else if anyKw l ["newt", "alpine", "smooth", "common newt"] then "Newt"
  else if anyKw l ["whale", "blue whale", "grey whale", "gray whale", "killer whale", "orca", "humpback"] then "Whale"
  else if anyKw l ["dolphin", "bottlenose", "spinner"] then "Dolphin"
  else if anyKw l ["seal", "sea lion", "fur seal", "leopard seal"] then "Seal"
  else if containsSub l "walrus" then "Walrus"
  else if anyKw l ["otter", "sea otter", "river otter"] then "Otter"
  else if anyKw l ["manatee", "dugong", "sea cow"] then "Manatee"
  else if containsSub l "narwhal" then "Narwhal"
  else if containsSub l "beluga" then "Beluga"
  else if anyKw l ["zebra", "plains", "mountain zebra", "grevy"] then "Zebra"
  else if containsSub l "giraffe" then "Giraffe"
  else if containsSub l "okapi" then "Okapi"
  else if anyKw l ["hippopotamus", "hippo"] then "Hippopotamus"
  else if anyKw l ["rhinoceros", "rhino", "white rhino", "black rhino", "sumatran"] then "Rhinoceros"
  else if anyKw l ["deer", "red deer", "mule deer", "sika"] then "Deer"
  else if (containsSub l "elk" || containsSub l "moose") then "Elk"
  else if anyKw l ["reindeer", "caribou"] then "Reindeer"
  else if anyKw l ["antelope", "pronghorn", "gazelle", "springbok", "impala", "kudu"] then "Antelope"
  else if anyKw l ["eland", "wildebeest", "gnu", "nyala", "oryx", "addax"] then "Wildebeest"
  else if anyKw l ["gemsbuck", "waterbuck", "bushbuck", "duiker"] then "African Ungulate"
  else if anyKw l ["buffalo", "water buffalo"] then "Buffalo"
  else if anyKw l ["bison", "american bison", "european"] then "Bison"
  else if anyKw l ["camel", "dromedary", "arabian", "bactrian"] then "Camel"
  else if anyKw l ["llama", "alpaca", "guanaco", "vicuna"] then "Llama"
  else if anyKw l ["sheep", "lamb", "ram", "bighorn"] then "Sheep"
  else if anyKw l ["goat", "kid", "mountain goat", "ibex"] then "Goat"
  else if anyKw l ["horse", "pony", "mare", "stallion", "colt", "foal"] then "Horse"
  else if anyKw l ["donkey", "mule", "ass"] then "Donkey"
  else if anyKw l ["cattle", "cow", "bull", "ox", "holstein", "hereford"] then "Cow"
  else if anyKw l ["pig", "hog", "wild boar", "babirusa", "peccary", "javelina"] then "Pig"
  else if anyKw l ["yak", "musk ox", "takin"] then (titleStr l)
  else if containsSub l "aardvark" then "Aardvark"
  else if (containsSub l "anteater" || containsSub l "ant eater") then "Anteater"
  else if containsSub l "pangolin" then "Pangolin"
  else if containsSub l "hedgehog" then "Hedgehog"
  else if anyKw l ["hyrax", "rock hyrax", "tree hyrax"] then "Hyrax"
  else if anyKw l ["capybara", "largest rodent"] then "Capybara"
  else if (containsSub l "paca" || containsSub l "agouti") then (titleStr l)
  else if containsSub l "quokka" then "Quokka"
  else if containsSub l "numbat" then "Numbat"
  else if (containsSub l "tasmanian devil" || containsSub l "tasmanian") then "Tasmanian Devil"
  else if (containsSub l "sugar glider" || containsSub l "feathertail") then "Sugar Glider"
  else if containsSub l "platypus" then "Platypus"
  else if containsSub l "echidna" then "Echidna"
  else if anyKw l ["tree shrew", "tupaia"] then "Tree Shrew"
  else if anyKw l ["colugo", "flying lemur", "flying dragon"] then "Colugo"
  else if anyKw l ["emu", "cassowary", "kiwi", "rhea"] then "Bird"
  else if containsSub l "raccoon" then "Raccoon"
  else if containsSub l "skunk" then "Skunk"
  else if containsSub l "weasel" then "Weasel"
  else if containsSub l "mink" then "Mink"
  else if anyKw l ["badger", "honey badger"] then "Badger"
  else if anyKw l ["ferret", "polecat", "black-footed ferret"] then "Ferret"
  else if anyKw l ["rabbit", "hare"] then "Rabbit"
  else if containsSub l "squirrel" then "Squirrel"
  else if containsSub l "chipmunk" then "Chipmunk"
  else if containsSub l "hamster" then "Hamster"
  else if containsSub l "guinea pig" then "Guinea Pig"
  else if containsSub l "mouse" then "Mouse"
  else if containsSub l "rat" then "Rat"
  else if containsSub l "beaver" then "Beaver"
  else if containsSub l "porcupine" then "Porcupine"
  else if containsSub l "armadillo" then "Armadillo"
  else if containsSub l "sloth" then "Sloth"
  else titleStr specific_label
/-- `ImageClassifier.is_human`: a label counts as human when any
person-related keyword occurs in its lowercased form. -/
def is_human (label : String) : Bool :=
  human_keywords.any (fun k => containsSub (lowerStr label) k)

/-- The `animal_categories` dict built in `ImageClassifier.__init__`
(`non_animal` maps to the empty list). -/
def animal_categories (category : String) : List String :=
  if category = "dog" then dog_labels
  else if category = "cat" then cat_labels
  else if category = "bird" then bird_labels
  else if category = "other_animal" then other_animal_labels
  else []

/-- `ImageClassifier.is_animal`: any keyword of the four animal
sub-vocabularies (lowercased), or any generic animal-class keyword,
occurring in the lowercased label. -/
def is_animal (label : String) : Bool :=
  (["dog", "cat", "bird", "other_animal"].any fun c =>
    (animal_categories c).any fun k => containsSub (lowerStr label) (lowerStr k)) ||
  generic_animal_keywords.any (fun k => containsSub (lowerStr label) k)

/-- Running state of the top-K prediction scan in
`ImageClassifier.classify_and_organize`: note that a SINGLE
`best_confidence` accumulator is shared between the animal and the human
track, exactly as in the source. -/
structure ScanState where
  best_animal : Option String
  best_human : Option String
  best_confidence : ℚ
  best_label : String
deriving DecidableEq

/-- Initial scan state (`best_animal = best_human = None`,
`best_confidence = 0`, `best_label = ""`). -/
def initScan : ScanState := ⟨none, none, 0, ""⟩

/-- One iteration of the top-K loop: animal check first, then human, each
updating only when the confidence strictly exceeds the shared accumulator. -/
def scanStep (st : ScanState) (p : String × ℚ) : ScanState :=
  if is_animal p.1 then
    (if st.best_confidence < p.2 then ⟨some p.1, st.best_human, p.2, p.1⟩ else st)
  else if is_human p.1 then
    (if st.best_confidence < p.2 then ⟨st.best_animal, some p.1, p.2, p.1⟩ else st)
  else st

/-- The top-K scan over the ranked predictions. -/
def scanTop (preds : List (String × ℚ)) : ScanState := preds.foldl scanStep initScan

/-- The full-probability-vector fallback scan: first entry above 5% matching
either vocabulary wins and stops the scan. -/
def fallbackScan : List (String × ℚ) → ScanState → ScanState
  | [], st => st
  | p :: rest, st =>
    if mkRat 1 20 < p.2 then
      (if is_animal p.1 then ⟨some p.1, st.best_human, p.2, p.1⟩
       else if is_human p.1 then ⟨st.best_animal, some p.1, p.2, p.1⟩
       else fallbackScan rest st)
    else fallbackScan rest st

/-- Scan phase of the Resolver: the top-K scan, then the fallback scan only
when neither vocabulary was hit in the top K. -/
def resolveScan (top allPreds : List (String × ℚ)) : ScanState :=
  let st := scanTop top
  if st.best_animal.isNone && st.best_human.isNone then fallbackScan allPreds st else st

/-- Python truthiness of an optional string (`if best_animal:`). -/
def optTruthy : Option String → Bool
  | none => false
  | some s => s != ""

/-- Sub-vocabulary bucket choice of `classify_and_organize`: the first of
dog, cat, bird whose keyword list has a (lowercased) member occurring in the
lowercased matched label; otherwise `other_animal`. -/
def bucketFor (best_animal : String) : String :=
  if (animal_categories "dog").any (fun k => containsSub (lowerStr best_animal) (lowerStr k)) then "dog"
  else if (animal_categories "cat").any (fun k => containsSub (lowerStr best_animal) (lowerStr k)) then "cat"
  else if (animal_categories "bird").any (fun k => containsSub (lowerStr best_animal) (lowerStr k)) then "bird"
  else "other_animal"

/-- `MIN_CONFIDENCE_ANIMAL` (0.15) in `classify_and_organize`. -/
def MIN_CONFIDENCE_ANIMAL : ℚ := mkRat 15 100

/-- `MIN_CONFIDENCE_HUMAN` (0.10) in `classify_and_organize`. -/
def MIN_CONFIDENCE_HUMAN : ℚ := mkRat 10 100

/-- Decision step of `classify_and_organize`: animal branch, human branch,
or the `Other` default with the raw top-1 confidence. -/
def decide_category (st : ScanState) (top1conf : ℚ) : String × String × ℚ :=
  if optTruthy st.best_animal ∧ MIN_CONFIDENCE_ANIMAL ≤ st.best_confidence then
    (bucketFor (st.best_animal.getD ""),
     _generalize_animal_label (st.best_animal.getD ""),
     st.best_confidence)
  else if optTruthy st.best_human ∧ MIN_CONFIDENCE_HUMAN ≤ st.best_confidence then
    ("non_animal", "Human", st.best_confidence)
  else
    ("non_animal", "Other", top1conf)

/-- The pure category-resolution core of `classify_and_organize`:
ranked top-K predictions plus the full probability vector to
(bucket, canonical label, confidence). -/
def resolveCategory (top allPreds : List (String × ℚ)) : String × String × ℚ :=
  decide_category (resolveScan top allPreds) (top.headD ("", 0)).2

/-- A pixel in OpenCV channel order (B, G, R), values 0–255. -/
abbrev Pixel := ℕ × ℕ × ℕ

/-- A decoded image: rows of pixels. -/
abbrev Image := List (List Pixel)

/-- Grayscale intensity of `cv2.cvtColor(..., COLOR_BGR2GRAY)`, modelled by
OpenCV's fixed-point weights (B·1868 + G·9617 + R·4899 + 8192) >> 14. -/
def grayValue (p : Pixel) : ℕ := (p.1 * 1868 + p.2.1 * 9617 + p.2.2 * 4899 + 8192) / 16384

/-- The `bw` filter of `apply_filter`: grayscale, replicated back across the
three channels. -/
def bwFilter (img : Image) : Image :=
  img.map (fun row => row.map (fun p => (grayValue p, grayValue p, grayValue p)))

/-- Saturation of an integer to the 0–255 byte range. -/
def clip255 (n : ℤ) : ℕ := (max 0 (min 255 n)).toNat

/-- Sepia color mixing of the `vintage` filter (`cv2.transform` with the
3×3 matrix of `image_filters.py`, applied to the stored (B,G,R) channel
vector, rounded and saturated). -/
def sepiaPixel (p : Pixel) : Pixel :=
  (clip255 (round ((393 * p.1 + 769 * p.2.1 + 189 * p.2.2 : ℚ) / 1000)),
   clip255 (round ((349 * p.1 + 686 * p.2.1 + 168 * p.2.2 : ℚ) / 1000)),
   clip255 (round ((272 * p.1 + 534 * p.2.1 + 131 * p.2.2 : ℚ) / 1000)))

/-- The `vintage` branch of `apply_filter`, modelled up to its deterministic
sepia color mixing; the radial vignette mask (real-valued Gaussian kernels)
and the random film grain of the source are outside a deterministic rational
embedding and are omitted — no claim below depends on the pixel values this
branch produces. -/
def vintageFilter (img : Image) : Image := img.map (List.map sepiaPixel)

/-- `image_filters.apply_filter`: `normal` and unknown ids are the identity. -/
def apply_filter (image : Image) (filter_name : String) : Image :=
  if filter_name = "normal" then image
  else if filter_name = "bw" then bwFilter image
  else if filter_name = "vintage" then vintageFilter image
  else image

/-- Ranked predictions: (label, confidence) pairs. -/
abbrev Preds := List (String × ℚ)

/-- Effects and result of `ImageClassifier.classify_and_organize` on one
photo: the returned triple, the destination of the `shutil.move`, and the
sidecar written by `_save_metadata` (none on the fault path, which moves the
file to the error folder and writes no sidecar). -/
structure ClassifyEffects where
  destination_folder : String
  detected_label : String
  confidence : ℚ
  moved : String × Image
  sidecar : Option (String × List (String × JVal))
deriving DecidableEq

/-- Fields of the sidecar written by `ImageClassifier._save_metadata`
(dict literal order of the source; `now` stands for
`datetime.now().isoformat()`). -/
def _save_metadata (image_path label : String) (confidence : ℚ) (category now : String) :
    List (String × JVal) :=
  [("filename", JVal.str (basename image_path)),
   ("ai_label", JVal.str label),
   ("confidence", JVal.str (formatPercent confidence)),
   ("category", JVal.str category),
   ("timestamp", JVal.str now),
   ("is_animal", JVal.bool (category != "non_animal"))]

/-- `ImageClassifier.classify_and_organize`: on a successful inference the
resolution runs, the file at `image_path` (content `content`) is moved into
`static/gallery/<bucket>/` and a sidecar is written next to it; on an
inference fault the exception is caught, the file is moved into the error
folder unprocessed, and `(error, <fault description>, 0)` is returned. -/
def classify_and_organize (content : Image) (image_path now : String)
    (inference : Except String (Preds × Preds)) : ClassifyEffects :=
  match inference with
  | Except.error e =>
    ⟨"error", e, 0, ("static/gallery/error/" ++ basename image_path, content), none⟩
  | Except.ok (top, allPreds) =>
    let r := resolveCategory top allPreds
    let new_path := "static/gallery" ++ "/" ++ r.1 ++ "/" ++ basename image_path
    ⟨r.1, r.2.1, r.2.2, (new_path, content),
     some (pyReplace new_path ".jpg" ".json", _save_metadata new_path r.2.1 r.2.2 r.1 now)⟩

/-- Fields of the metadata file written by
`ComputerServer.save_image_metadata` (dict literal order of the source). -/
def save_image_metadata (image_path category filter_name label : String) (confidence : ℚ)
    (now : String) : List (String × JVal) :=
  [("filename", JVal.str (basename image_path)),
   ("category", JVal.str category),
   ("filter", JVal.str filter_name),
   ("ai_label", JVal.str label),
   ("confidence", JVal.str (formatPercent confidence)),
   ("timestamp", JVal.str now)]

/-- Effects of `ComputerServer.process_image`: the staging file content at
classification time (the filtered image overwrites the upload when the
filter is not `normal`), the classifier's effects, and the metadata file the
server writes next to the STAGING path (`uploads/…`). -/
structure ProcessEffects where
  stagingAtClassify : Image
  classify : ClassifyEffects
  serverSidecar : String × List (String × JVal)
deriving DecidableEq

/-- `ComputerServer.process_image`: read the staged upload, apply the filter
when requested (overwriting the staging file), classify-and-organize, then
write the server-side metadata file derived from the staging path. -/
def process_image (original : Image) (image_path filter_type filter_display now : String)
    (inference : Except String (Preds × Preds)) : ProcessEffects :=
  let image := if filter_type ≠ "normal" then apply_filter original filter_type else original
  let ce := classify_and_organize image image_path now inference
  ⟨image, ce,
   (pyReplace image_path ".jpg" ".json",
    save_image_metadata image_path ce.destination_folder filter_display ce.detected_label
      ce.confidence now)⟩

/-- One receive call's outcome on the body socket: a chunk of bytes (empty
means the peer closed), or the 2-second idle timeout firing. -/
inductive RecvEvent where
  | chunk (data : List ℕ)
  | timeout
deriving DecidableEq

/-- The body receive loop of `handle_client`: accumulate chunks until an
empty receive (peer closed), a timeout, or no further events; bytes already
received are kept, and events after the terminator are never consumed. -/
def recvBody : List RecvEvent → List ℕ
  | [] => []
  | RecvEvent.chunk [] :: _ => []
  | RecvEvent.chunk (b :: bs) :: rest => (b :: bs) ++ recvBody rest
  | RecvEvent.timeout :: _ => []

/-- Parse outcome of the header line: no data before the newline, invalid
JSON, or a JSON object modelled as its key/value fields. -/
inductive Header where
  | noData
  | invalidJson
  | fields (fs : List (String × String))

/-- Observable outcome of one `handle_client` call: the staging file write
(path and bytes), whether and how `process_image` was invoked
(staging path, filter id, filter display name), and that the socket was
closed (the `finally` block). -/
structure HandleOutcome where
  staged : Option (String × List ℕ)
  processedCall : Option (String × String × String)
  socketClosed : Bool
deriving DecidableEq

/-- `ComputerServer.handle_client`: read and parse the header (missing data,
bad JSON and a missing `filename` key each abort the connection through the
per-connection exception handling with no filesystem effect), receive the
body, ALWAYS write it to `uploads/<filename>`, then hand off to
`process_image` only when more than 1024 bytes arrived. -/
def handle_client (header : Header) (events : List RecvEvent) : HandleOutcome :=
  match header with
  | Header.noData => ⟨none, none, true⟩
  | Header.invalidJson => ⟨none, none, true⟩
  | Header.fields fs =>
    match fs.lookup "filename" with
    | none => ⟨none, none, true⟩
    | some filename =>
      let filter_type := (fs.lookup "filter").getD "normal"
      let filter_display := (fs.lookup "filter_display").getD "Normal Color"
      let image_data := recvBody events
      let upload_path := "uploads/" ++ filename
      if 1024 < image_data.length then
        ⟨some (upload_path, image_data), some (upload_path, filter_type, filter_display), true⟩
      else
        ⟨some (upload_path, image_data), none, true⟩

/-- Resolution of `.` and `..` segments of a relative path. -/
def resolveDots (segs : List (List Char)) : List (List Char) :=
  segs.foldl
    (fun acc seg =>
      if seg = [] then acc
      else if seg = ['.'] then acc
      else if seg = ['.', '.'] then acc.dropLast
      else acc ++ [seg])
    []

/-- Does the path `p`, after resolving dot segments, still point below the
directory `dir`? Formalizes the claim's notion of a staging path staying
inside the staging directory. -/
def staysInside (dir p : String) : Bool :=
  match resolveDots (splitOnCharCS (Char.ofNat 47) p.data) with
  | [] => false
  | d :: _ => d == dir.data

/-- A gallery listing entry as assembled by the `gallery` route of
`web_gallery.py` (url and time fields omitted: they repeat `name` and the
file modification time). -/
structure GalleryEntry where
  name : String
  category : String
  filter : String
  ai_label : String
  confidence : String
deriving DecidableEq

/-- The JSON files of the gallery tree: path to parsed key/value fields. -/
abbrev JsonFS := List (String × List (String × String))

/-- `web_gallery.load_image_metadata`: the sidecar at
`image_path.replace('.jpg', '.json')`, when present. -/
def load_image_metadata (fsJson : JsonFS) (image_path : String) :
    Option (List (String × String)) :=
  fsJson.lookup (pyReplace image_path ".jpg" ".json")

/-- The listing's file test: `img.lower().endswith('.jpg')`. -/
def isJpgName (s : String) : Bool := List.isSuffixOf ".jpg".data (lowerStr s).data

/-- Image path of a gallery file. -/
def imgPathOf (category img : String) : String := "static/gallery/" ++ category ++ "/" ++ img

/-- One image's listing entry: sidecar fields when present, with the
documented per-key defaults `Normal` / `Not classified` / `N/A`. -/
def buildEntry (category img : String) (fsJson : JsonFS) : GalleryEntry :=
  let md := (load_image_metadata fsJson (imgPathOf category img)).getD []
  ⟨img, category,
   (md.lookup "filter").getD "Normal",
   (md.lookup "ai_label").getD "Not classified",
   (md.lookup "confidence").getD "N/A"⟩

/-- Insertion into a descending-sorted list of names. -/
def insertDesc (x : String) : List String → List String
  | [] => [x]
  | y :: ys => if x < y then y :: insertDesc x ys else x :: y :: ys

/-- `sorted(names, reverse=True)`: newest-first filename order. -/
def sortDesc : List String → List String
  | [] => []
  | x :: xs => insertDesc x (sortDesc xs)

/-- The per-category listing of the `gallery` route: the `.jpg` files of the
bucket directory, newest first, each paired with its sidecar fields or the
defaults. -/
def listCategory (category : String) (files : List String) (fsJson : JsonFS) :
    List GalleryEntry :=
  (sortDesc (files.filter isJpgName)).map (fun img => buildEntry category img fsJson)

/-- First prediction whose label matches either vocabulary. -/
def firstVocabHit : List (String × ℚ) → Option (String × ℚ)
  | [] => none
  | p :: rest => if is_animal p.1 || is_human p.1 then some p else firstVocabHit rest
/-! ### Helper lemmas -/

/-- Once the shared accumulator is at least every remaining confidence, the
top-K scan changes nothing further (updates require a strict increase). -/
theorem foldl_scanStep_const (rest : List (String × ℚ)) (st : ScanState)
    (h : ∀ p ∈ rest, p.2 ≤ st.best_confidence) :
    rest.foldl scanStep st = st := by
  induction rest with
  | nil => rfl
  | cons p ps ih =>
    have hp : ¬ st.best_confidence < p.2 := not_lt.mpr (h p (List.mem_cons_self p ps))
    have hstep : scanStep st p = st := by
      simp [scanStep, hp]
    rw [List.foldl_cons, hstep]
    exact ih (fun q hq => h q (List.mem_cons_of_mem p hq))

/-- On a ranked (descending) list with a positive first vocabulary hit that
is an ANIMAL hit, the top-K scan ends in exactly that hit: the shared
accumulator lets only the first vocabulary hit of a descending list through. -/
theorem scanTop_firstVocab (preds : List (String × ℚ)) (l : String) (c : ℚ)
    (hdesc : preds.Pairwise (fun a b => b.2 ≤ a.2))
    (hfirst : firstVocabHit preds = some (l, c))
    (ha : is_animal l = true) (hpos : 0 < c) :
    scanTop preds = ⟨some l, none, c, l⟩ := by
  induction preds with
  | nil => simp [firstVocabHit] at hfirst
  | cons p ps ih =>
    rw [List.pairwise_cons] at hdesc
    by_cases hv : (is_animal p.1 || is_human p.1) = true
    · rw [firstVocabHit, if_pos hv] at hfirst
      injection hfirst with hp
      subst hp
      rw [scanTop, List.foldl_cons]
      have hstep : scanStep initScan (l, c) = ⟨some l, none, c, l⟩ := by
        have h : initScan.best_confidence < (l, c).2 := hpos
        simp [scanStep, ha, h, hpos, initScan]
      rw [hstep]
      exact foldl_scanStep_const ps _ (fun q hq => hdesc.1 q hq)
    · rw [firstVocabHit, if_neg hv] at hfirst
      rw [Bool.or_eq_true, not_or] at hv
      have hv1 : is_animal p.1 = false := Bool.not_eq_true _ ▸ Bool.of_not_eq_true hv.1
      have hv2 : is_human p.1 = false := Bool.not_eq_true _ ▸ Bool.of_not_eq_true hv.2
      rw [scanTop, List.foldl_cons]
      have hstep : scanStep initScan p = initScan := by
        simp [scanStep, hv1, hv2]
      rw [hstep]
      exact ih hdesc.2 hfirst

/-- Bytes received before the idle timeout are exactly what the receive loop
returns; nonempty chunks arriving before the timeout are all kept, and
events after the timeout are never consumed. -/
theorem recvBody_timeout (chunks : List (List ℕ)) (rest : List RecvEvent)
    (hne : ∀ ch ∈ chunks, ch ≠ []) :
    recvBody (chunks.map RecvEvent.chunk ++ RecvEvent.timeout :: rest) = chunks.flatten := by
  induction chunks with
  | nil => rfl
  | cons ch chs ih =>
    cases ch with
    | nil => exact absurd rfl (hne [] (List.mem_cons_self _ _))
    | cons b bs =>
      simp only [List.map_cons, List.cons_append, recvBody, List.flatten_cons, List.append_eq]
      rw [ih (fun x hx => hne x (List.mem_cons_of_mem _ hx))]

/-- Membership through descending insertion. -/
theorem mem_insertDesc {a x : String} {l : List String} :
    a ∈ insertDesc x l ↔ a = x ∨ a ∈ l := by
  induction l with
  | nil => simp [insertDesc]
  | cons y ys ih =>
    unfold insertDesc
    split
    · rw [List.mem_cons, ih, List.mem_cons]
      tauto
    · simp

/-- The newest-first sort keeps exactly the listed names. -/
theorem mem_sortDesc {a : String} {l : List String} : a ∈ sortDesc l ↔ a ∈ l := by
  induction l with
  | nil => simp [sortDesc]
  | cons x xs ih => simp [sortDesc, mem_insertDesc, ih]

/-! ### Claim theorems -/

/-- C1, counterexample: the ranked list `[("person", 0.5), ("tabby", 0.2)]`
is descending, contains the ANIMAL-vocabulary hit `tabby` with confidence
0.2 ≥ 0.15, yet the Resolver returns the human outcome
`(non_animal, Human, 0.5)` rather than the `cat` bucket: the earlier,
higher-confidence HUMAN hit occupies the single shared best-confidence
accumulator, so the animal hit is never recorded — the two vocabularies are
NOT tracked independently. -/
theorem earlier_human_hit_overrides_animal :
    is_animal "tabby" = true ∧
    is_human "person" = true ∧
    MIN_CONFIDENCE_ANIMAL ≤ mkRat 1 5 ∧
    (mkRat 1 5 : ℚ) ≤ mkRat 1 2 ∧
    resolveCategory [("person", mkRat 1 2), ("tabby", mkRat 1 5)] []
      = ("non_animal", "Human", mkRat 1 2) :=
  ⟨by decide, by decide, by decide, by decide, by decide⟩

/-- C1, amended: the scan keeps ONE shared best-confidence accumulator for
both vocabularies, so on a ranked (descending) prediction list only the
first vocabulary hit survives the scan. Whenever that first hit is an
ANIMAL-vocabulary label with confidence ≥ 0.15 — in particular whenever no
HUMAN hit precedes the animal hit — the Resolver returns bucket dog/cat/bird
(if the matched label falls in that sub-vocabulary) or `other_animal`, with
the Generalization Map applied to the matched raw label and the hit's
confidence. -/
theorem animal_hit_resolution_amended (top allPreds : Preds) (l : String) (c : ℚ)
    (hdesc : top.Pairwise (fun a b => b.2 ≤ a.2))
    (hfirst : firstVocabHit top = some (l, c))
    (ha : is_animal l = true)
    (hc : MIN_CONFIDENCE_ANIMAL ≤ c) :
    resolveCategory top allPreds = (bucketFor l, _generalize_animal_label l, c) := by
  have h0 : (0 : ℚ) < MIN_CONFIDENCE_ANIMAL := by decide
  have hpos : 0 < c := lt_of_lt_of_le h0 hc
  have hscan := scanTop_firstVocab top l c hdesc hfirst ha hpos
  have hl : (l != "") = true := by
    rw [bne_iff_ne]
    intro h
    rw [h] at ha
    exact absurd ha (by decide)
  have hres : resolveScan top allPreds = ⟨some l, none, c, l⟩ := by
    unfold resolveScan
    rw [hscan]
    rfl
  unfold resolveCategory
  rw [hres]
  simp [decide_category, optTruthy, hl, hc]

/-- C1, witness: on the single-element ranked list `[("tabby", 0.2)]` the
amended theorem applies and yields the animal outcome. -/
theorem animal_hit_resolution_amended_witness :
    resolveCategory [("tabby", mkRat 1 5)] []
      = (bucketFor "tabby", _generalize_animal_label "tabby", mkRat 1 5) :=
  animal_hit_resolution_amended [("tabby", mkRat 1 5)] [] "tabby" (mkRat 1 5)
    (by decide) (by decide) (by decide) (by decide)

/-- C2, counterexample: a successfully resolved photo (here `tiger` at 50%)
gets a sidecar next to the stored image whose field set is exactly
filename, ai_label, confidence, category, timestamp, is_animal — the filter
display name is NOT among them, contradicting the claimed field list. -/
theorem stored_sidecar_lacks_filter_field :
    ((process_image [[(1, 2, 3)]] "uploads/t.jpg" "normal" "Normal Color"
          "2024-01-01T00:00:00"
          (Except.ok ([("tiger", mkRat 1 2)], []))).classify.sidecar.map
        (fun sc => (sc.1, sc.2.map Prod.fst)))
      = some ("static/gallery/other_animal/t.json",
          ["filename", "ai_label", "confidence", "category", "timestamp", "is_animal"]) ∧
    "filter" ∉ ["filename", "ai_label", "confidence", "category", "timestamp", "is_animal"] :=
  ⟨by decide, by decide⟩

/-- C2, amended: for every successfully resolved photo, the sidecar written
next to the stored image carries exactly the fields filename, ai_label
(canonical label), confidence (percentage string), category (bucket),
timestamp, and `is_animal = (bucket ≠ non_animal)` — but no filter field;
the filter display name is instead written by the server into a second
metadata file at the staging path, which in turn has no is_animal field. -/
theorem sidecar_fields_on_success (original : Image)
    (image_path filter_type filter_display now : String) (top allPreds : Preds) :
    ∃ path fields,
      (process_image original image_path filter_type filter_display now
          (Except.ok (top, allPreds))).classify.sidecar = some (path, fields) ∧
      fields.map Prod.fst
        = ["filename", "ai_label", "confidence", "category", "timestamp", "is_animal"] ∧
      fields.lookup "filter" = none ∧
      fields.lookup "is_animal"
        = some (JVal.bool ((resolveCategory top allPreds).1 != "non_animal")) ∧
      fields.lookup "confidence"
        = some (JVal.str (formatPercent (resolveCategory top allPreds).2.2)) ∧
      (process_image original image_path filter_type filter_display now
          (Except.ok (top, allPreds))).serverSidecar.2.lookup "filter"
        = some (JVal.str filter_display) ∧
      (process_image original image_path filter_type filter_display now
          (Except.ok (top, allPreds))).serverSidecar.2.lookup "is_animal" = none :=
  ⟨_, _, rfl, rfl, rfl, rfl, rfl, rfl, rfl⟩

/-- C3, counterexample: a connection whose body is only 3 bytes (≤ 1024) is
rejected without processing, yet the received bytes ARE retained on disk:
the handler writes `uploads/a.jpg` before the size check and never removes
it, contradicting the claim that no received data is retained. -/
theorem small_body_bytes_retained :
    handle_client (Header.fields [("filename", "a.jpg")])
        [RecvEvent.chunk [7, 7, 7], RecvEvent.timeout]
      = ⟨some ("uploads/a.jpg", [7, 7, 7]), none, true⟩ := by decide

/-- C3, amended: for every connection whose received body is 1024 bytes or
fewer the service logs the rejection and performs no further processing —
the photo is not filtered, not classified and not stored in any bucket —
but the body is NOT discarded: it has already been persisted to the staging
location `uploads/<filename>` and is retained there. -/
theorem small_body_no_processing_but_staged (fs : List (String × String))
    (filename : String) (events : List RecvEvent)
    (hf : fs.lookup "filename" = some filename)
    (hsmall : (recvBody events).length ≤ 1024) :
    handle_client (Header.fields fs) events
      = ⟨some ("uploads/" ++ filename, recvBody events), none, true⟩ := by
  simp only [handle_client, hf]
  rw [if_neg (not_lt.mpr hsmall)]

/-- C3, witness: a connection with an immediate timeout (empty body) is
rejected; the empty body is still staged under `uploads/b.jpg`. -/
theorem small_body_no_processing_but_staged_witness :
    handle_client (Header.fields [("filename", "b.jpg")]) [RecvEvent.timeout]
      = ⟨some ("uploads/" ++ "b.jpg", recvBody [RecvEvent.timeout]), none, true⟩ :=
  small_body_no_processing_but_staged [("filename", "b.jpg")] "b.jpg" [RecvEvent.timeout]
    (by decide) (by decide)

/-- C4: when the body stream pauses beyond the idle timeout, exactly the
bytes received before the timeout are kept and persisted to the staging
location: the staged file is the concatenation of the chunks that arrived,
whatever events (`rest`) would have followed the timeout — nothing is
retried and nothing already received is lost. -/
theorem timeout_preserves_received_bytes (fs : List (String × String))
    (filename : String) (chunks : List (List ℕ)) (rest : List RecvEvent)
    (hf : fs.lookup "filename" = some filename)
    (hne : ∀ ch ∈ chunks, ch ≠ []) :
    (handle_client (Header.fields fs)
        (chunks.map RecvEvent.chunk ++ RecvEvent.timeout :: rest)).staged
      = some ("uploads/" ++ filename, chunks.flatten) := by
  simp only [handle_client, hf, recvBody_timeout chunks rest hne]
  split <;> rfl

/-- C4, witness: two chunks arrive, the stream pauses, and a later chunk is
never consumed; the staged bytes are exactly the first two chunks. -/
theorem timeout_preserves_received_bytes_witness :
    (handle_client (Header.fields [("filename", "c.jpg")])
        ([[1, 2], [3]].map RecvEvent.chunk ++ RecvEvent.timeout :: [RecvEvent.chunk [9]])).staged
      = some ("uploads/" ++ "c.jpg", [[1, 2], [3]].flatten) :=
  timeout_preserves_received_bytes [("filename", "c.jpg")] "c.jpg" [[1, 2], [3]]
    [RecvEvent.chunk [9]] (by decide) (by decide)

/-- C5: on any internal classifier fault the Resolver never raises: it
returns the triple `(error, <fault description>, 0)`, moving the file at the
staged path into the error folder and writing no sidecar. -/
theorem classifier_fault_never_raises (content : Image) (image_path now e : String) :
    classify_and_organize content image_path now (Except.error e)
      = ⟨"error", e, 0, ("static/gallery/error/" ++ basename image_path, content), none⟩ :=
  rfl

/-- C6, counterexample: with the `bw` filter requested and a classifier
fault, the bytes landing in the error bucket are the grayscale-filtered
image, not the original upload: the filter stage overwrote the staging file
before classification, so the original bytes are not preserved. -/
theorem error_bucket_holds_filtered_bytes :
    (process_image [[(0, 100, 255)]] "uploads/x.jpg" "bw" "Black and White" "t"
        (Except.error "boom")).classify.moved
      = ("static/gallery/error/x.jpg", [[(135, 135, 135)]]) ∧
    (process_image [[(0, 100, 255)]] "uploads/x.jpg" "bw" "Black and White" "t"
        (Except.error "boom")).classify.destination_folder = "error" ∧
    ([[((135 : ℕ), (135 : ℕ), (135 : ℕ))]] : Image) ≠ [[(0, 100, 255)]] :=
  ⟨by decide, by decide, by decide⟩

/-- C6, amended: whenever the classifier faults, the bytes moved into the
error bucket are the staging file's content at fault time: the unmodified
original when the requested filter is `normal`, and otherwise the output of
the filter stage, which overwrote the staging file before classification. -/
theorem error_bucket_content_amended (original : Image)
    (image_path filter_type filter_display now e : String) :
    (process_image original image_path filter_type filter_display now
        (Except.error e)).classify.destination_folder = "error" ∧
    (process_image original image_path filter_type filter_display now
        (Except.error e)).classify.moved
      = ("static/gallery/error/" ++ basename image_path,
         if filter_type = "normal" then original else apply_filter original filter_type) := by
  refine ⟨rfl, ?_⟩
  by_cases h : filter_type = "normal"
  · simp [process_image, classify_and_organize, h]
  · simp [process_image, classify_and_organize, h]

/-- C7, counterexample: the staging path actually written is the raw
concatenation of `uploads/` with the client-supplied filename; for the
filename `../secret.jpg` the written path resolves outside the staging
directory, while an ordinary name stays inside — no sanitization happens. -/
theorem traversal_filename_escapes_staging :
    (handle_client (Header.fields [("filename", "../secret.jpg")])
        [RecvEvent.chunk [5], RecvEvent.timeout]).staged
      = some ("uploads/../secret.jpg", [5]) ∧
    staysInside "uploads" "uploads/../secret.jpg" = false ∧
    staysInside "uploads" "uploads/photo.jpg" = true :=
  ⟨by decide, by decide, by decide⟩

/-- C7, amended: the service applies NO sanitization to the client-supplied
filename: for every header carrying a filename, the staging path written is
the literal concatenation `uploads/<filename>`, so a filename containing
`..` segments escapes the staging directory (see the counterexample). -/
theorem staging_path_is_unsanitized_concat (fs : List (String × String))
    (filename : String) (events : List RecvEvent)
    (hf : fs.lookup "filename" = some filename) :
    (handle_client (Header.fields fs) events).staged
      = some ("uploads/" ++ filename, recvBody events) := by
  simp only [handle_client, hf]
  split <;> rfl

/-- C7, witness: a traversal filename is staged verbatim under
`uploads/` with no rewriting. -/
theorem staging_path_is_unsanitized_concat_witness :
    (handle_client (Header.fields [("filename", "../../etc/passwd.jpg")])
        [RecvEvent.timeout]).staged
      = some ("uploads/" ++ "../../etc/passwd.jpg", recvBody [RecvEvent.timeout]) :=
  staging_path_is_unsanitized_concat [("filename", "../../etc/passwd.jpg")]
    "../../etc/passwd.jpg" [RecvEvent.timeout] (by decide)

/-- C8: round-trip through the store's read side. An image stored in bucket
B with sidecar M appears in B's listing surfacing M's filter, ai_label and
confidence fields; with the sidecar deleted (and only it), the image still
appears in the listing, now with the documented defaults
filter = Normal, ai_label = Not classified, confidence = N/A. -/
theorem gallery_round_trip (category img fv lv cv : String) (files : List String)
    (fsJson fsJson2 : JsonFS) (md : List (String × String))
    (himg : img ∈ files) (hjpg : isJpgName img = true)
    (hmd : load_image_metadata fsJson (imgPathOf category img) = some md)
    (hfv : md.lookup "filter" = some fv)
    (hlv : md.lookup "ai_label" = some lv)
    (hcv : md.lookup "confidence" = some cv)
    (hdel : load_image_metadata fsJson2 (imgPathOf category img) = none) :
    buildEntry category img fsJson ∈ listCategory category files fsJson ∧
    buildEntry category img fsJson = ⟨img, category, fv, lv, cv⟩ ∧
    buildEntry category img fsJson2 ∈ listCategory category files fsJson2 ∧
    buildEntry category img fsJson2 = ⟨img, category, "Normal", "Not classified", "N/A"⟩ := by
  have hmem : img ∈ sortDesc (files.filter isJpgName) :=
    mem_sortDesc.mpr (List.mem_filter.mpr ⟨himg, hjpg⟩)
  refine ⟨List.mem_map_of_mem _ hmem, ?_, List.mem_map_of_mem _ hmem, ?_⟩
  · simp [buildEntry, hmd, hfv, hlv, hcv]
  · simp [buildEntry, hdel]

/-- C8, witness: one stored dog photo with a concrete sidecar; listing
surfaces the sidecar fields, and with an empty metadata store the image is
still listed with the defaults. -/
theorem gallery_round_trip_witness :
    buildEntry "dog" "x.jpg"
        [("static/gallery/dog/x.json",
          [("filter", "Vintage Film"), ("ai_label", "Dog"), ("confidence", "73.00%")])]
      ∈ listCategory "dog" ["x.jpg"]
        [("static/gallery/dog/x.json",
          [("filter", "Vintage Film"), ("ai_label", "Dog"), ("confidence", "73.00%")])] ∧
    buildEntry "dog" "x.jpg"
        [("static/gallery/dog/x.json",
          [("filter", "Vintage Film"), ("ai_label", "Dog"), ("confidence", "73.00%")])]
      = ⟨"x.jpg", "dog", "Vintage Film", "Dog", "73.00%"⟩ ∧
    buildEntry "dog" "x.jpg" [] ∈ listCategory "dog" ["x.jpg"] [] ∧
    buildEntry "dog" "x.jpg" []
      = ⟨"x.jpg", "dog", "Normal", "Not classified", "N/A"⟩ :=
  gallery_round_trip "dog" "x.jpg" "Vintage Film" "Dog" "73.00%" ["x.jpg"]
    [("static/gallery/dog/x.json",
      [("filter", "Vintage Film"), ("ai_label", "Dog"), ("confidence", "73.00%")])] []
    [("filter", "Vintage Film"), ("ai_label", "Dog"), ("confidence", "73.00%")]
    (by decide) (by decide) (by decide) (by decide) (by decide) (by decide) (by decide)

/-- C9: resolving the single ranked prediction `[("tiger", 0.5)]` yields
bucket `other_animal` with canonical label `Tiger`: the big-cat table of the
priority-ordered Generalization Map matches before any domestic-cat rule can
collapse the label to `Cat`. -/
theorem tiger_resolves_to_other_animal :
    resolveCategory [("tiger", mkRat 1 2)] [] = ("other_animal", "Tiger", mkRat 1 2) ∧
    _generalize_animal_label "tiger" = "Tiger" :=
  ⟨by decide, by decide⟩

/-- C10: a header that parses as JSON but lacks the `filename` field aborts
just that connection: the KeyError falls to the per-connection exception
handling, the socket is closed, and no bytes are persisted or processed
(the handler returns normally, so the accept loop keeps serving others). -/
theorem missing_filename_aborts_connection (fs : List (String × String))
    (events : List RecvEvent)
    (hf : fs.lookup "filename" = none) :
    handle_client (Header.fields fs) events = ⟨none, none, true⟩ := by
  simp only [handle_client, hf]

/-- C10, witness: a header carrying only filter fields (no filename) aborts
with no staging write even though body bytes arrived. -/
theorem missing_filename_aborts_connection_witness :
    handle_client (Header.fields [("filter", "bw"), ("filter_display", "Black and White")])
        [RecvEvent.chunk [1], RecvEvent.timeout]
      = ⟨none, none, true⟩ :=
  missing_filename_aborts_connection
    [("filter", "bw"), ("filter_display", "Black and White")]
    [RecvEvent.chunk [1], RecvEvent.timeout] (by decide)

end AnimalGallery
